import Mathlib

set_option maxRecDepth 8192

/-!
Shallow embedding of the research orchestrator in
`src/lib/deep-research/deep-research.ts`.

LLM and web-search calls are modelled as oracle inputs: a call that the
source wraps in try/catch receives an `Except Unit R` response (`.error`
for a failed/ill-formed call), a call whose failure the source lets
propagate receives a plain response (theorems then speak about the
executions that return normally).  `Date.now()` readings are modelled as a
clock oracle `Nat → Int` consumed in call order.  JavaScript records are
modelled as functions `String → Option _` or association lists, and
JavaScript truthiness on strings (`if (s)`) as `s ≠ ""`.
-/

/-- `ResearchComponent` from deep-research.ts. -/
structure ResearchComponent where
  name : String
  description : String
  subQuestions : List String
  successCriteria : List String
deriving Repr, DecidableEq

/-- `ResearchPlan` from deep-research.ts. -/
structure ResearchPlan where
  mainObjective : String
  components : List ResearchComponent
  sequencing : List String
  potentialPivots : List String
deriving Repr, DecidableEq

/-- `ComponentResult` from deep-research.ts. -/
structure ComponentResult where
  learnings : List String
  visitedUrls : List String
  summary : String
  timeSpent : Int
deriving Repr, DecidableEq

/-- `ResearchState` from deep-research.ts; `componentTimes` is the JS record
`Record<string, number>` as a partial map. -/
structure ResearchState where
  startTime : Int
  currentTime : Int
  elapsedTime : Int
  remainingTime : Int
  completed : List String
  inProgress : Option String
  remaining : List String
  componentTimes : String → Option Int

/-- `plan.sequencing[0] || null`: JS `||` treats the empty string as falsy. -/
def headOrNull (l : List String) : Option String :=
  match l with
  | [] => none
  | h :: _ => if h = "" then none else some h

/-- `updateResearchState` from deep-research.ts (lines 198-256).  The
`Date.now()` reading is the explicit `now` argument.  `completedComponent`
is checked by JS truthiness, so `some ""` behaves like `none`. -/
def updateResearchState (state : Option ResearchState) (plan : ResearchPlan)
    (maxDuration : Int) (completedComponent : Option String) (timeSpent : Int)
    (now : Int) : ResearchState :=
  match state with
  | none =>
      { startTime := now
        currentTime := now
        elapsedTime := 0
        remainingTime := maxDuration * 60 * 1000
        completed := []
        inProgress := headOrNull plan.sequencing
        remaining := plan.sequencing
        componentTimes := fun _ => none }
  | some s =>
      let elapsed := now - s.startTime
      let base : ResearchState :=
        { s with
          currentTime := now
          elapsedTime := elapsed
          remainingTime := max 0 (maxDuration * 60 * 1000 - elapsed) }
      match completedComponent with
      | none => base
      | some name =>
          if name = "" then base
          else
            { base with
              completed := base.completed ++ [name]
              componentTimes := fun k =>
                if k = name then some timeSpent else base.componentTimes k
              inProgress := base.remaining.find? (fun c => c != name)
              remaining := base.remaining.filter (fun c => c != name) }

/-- `createResearchPlan` from deep-research.ts (lines 97-189), as a function
of the planner LLM response.  The catch branch returns the hard-coded
minimal plan; the function is total, so it never throws. -/
def createResearchPlan (query : String)
    (llmResponse : Except Unit ResearchPlan) : ResearchPlan :=
  match llmResponse with
  | Except.ok p => p
  | Except.error _ =>
      { mainObjective := query
        components :=
          [{ name := "Basic Research"
             description := "General exploration of the topic"
             subQuestions := [query]
             successCriteria := ["Gather basic information about the topic"] }]
        sequencing := ["Basic Research"]
        potentialPivots := [] }

/-- Shared example plan for concrete evaluations. -/
def examplePlan : ResearchPlan :=
  { mainObjective := "study X"
    components :=
      [{ name := "A", description := "first", subQuestions := ["qa"],
         successCriteria := ["ca"] },
       { name := "B", description := "second", subQuestions := ["qb"],
         successCriteria := ["cb"] }]
    sequencing := ["A", "B"]
    potentialPivots := [] }

/-- Shared example state for concrete evaluations. -/
def exampleState : ResearchState :=
  { startTime := 0
    currentTime := 0
    elapsedTime := 0
    remainingTime := 60000
    completed := []
    inProgress := some "A"
    remaining := ["A", "B"]
    componentTimes := fun _ => none }

/-- `l.findIndex(p)` followed by indexing equals the head of `l.filter(p)`. -/
theorem find?_eq_head?_filter (p : String → Bool) (l : List String) :
    l.find? p = (l.filter p).head? := by
  induction l with
  | nil => rfl
  | cons h t ih =>
      by_cases hp : p h
      · rw [List.find?_cons_of_pos t hp, List.filter_cons_of_pos hp,
          List.head?_cons]
      · rw [List.find?_cons_of_neg t hp, List.filter_cons_of_neg hp, ih]

/-- Equation lemma: the tick branch of `updateResearchState`. -/
theorem updateResearchState_tick_eq (s : ResearchState) (plan : ResearchPlan)
    (maxDuration timeSpent now : Int) :
    updateResearchState (some s) plan maxDuration none timeSpent now =
      { s with
        currentTime := now
        elapsedTime := now - s.startTime
        remainingTime :=
          max 0 (maxDuration * 60 * 1000 - (now - s.startTime)) } := rfl

/-- Equation lemma: the completion branch of `updateResearchState` for a
non-empty (JS-truthy) component name. -/
theorem updateResearchState_complete_eq (s : ResearchState)
    (plan : ResearchPlan) (maxDuration timeSpent now : Int) (name : String)
    (hne : name ≠ "") :
    updateResearchState (some s) plan maxDuration (some name) timeSpent now =
      { startTime := s.startTime
        currentTime := now
        elapsedTime := now - s.startTime
        remainingTime := max 0 (maxDuration * 60 * 1000 - (now - s.startTime))
        completed := s.completed ++ [name]
        inProgress := s.remaining.find? (fun c => c != name)
        remaining := s.remaining.filter (fun c => c != name)
        componentTimes := fun k =>
          if k = name then some timeSpent else s.componentTimes k } := by
  simp only [updateResearchState, if_neg hne]

/-- C4 (amended: the completed name must be non-empty, since
`if (completedComponent)` treats `""` as absent): completing `name` appends
it to `completed`, removes every occurrence from `remaining`, records
`componentTimes[name] = timeSpent`, and advances `inProgress` to the first
component still remaining (`null` if none remain) — in particular this holds
when `name` is not the first element of `remaining`. -/
theorem updateResearchState_complete (s : ResearchState) (plan : ResearchPlan)
    (maxDuration timeSpent now : Int) (name : String)
    (hmem : name ∈ s.remaining) (hne : name ≠ "") :
    (updateResearchState (some s) plan maxDuration (some name) timeSpent
        now).completed = s.completed ++ [name] ∧
    (updateResearchState (some s) plan maxDuration (some name) timeSpent
        now).remaining = s.remaining.filter (fun c => c != name) ∧
    name ∉ (updateResearchState (some s) plan maxDuration (some name) timeSpent
        now).remaining ∧
    (updateResearchState (some s) plan maxDuration (some name) timeSpent
        now).componentTimes name = some timeSpent ∧
    (updateResearchState (some s) plan maxDuration (some name) timeSpent
        now).inProgress =
      (updateResearchState (some s) plan maxDuration (some name) timeSpent
        now).remaining.head? := by
  rw [updateResearchState_complete_eq s plan maxDuration timeSpent now name hne]
  refine ⟨rfl, rfl, ?_, ?_, ?_⟩
  · intro hcontra
    have hself := (List.mem_filter.mp hcontra).2
    simp at hself
  · simp
  · exact find?_eq_head?_filter (fun c => c != name) s.remaining

/-- Witness for C4 at a concrete input: completing "B", the second element
of `remaining`. -/
theorem updateResearchState_complete_witness :
    (updateResearchState (some exampleState) examplePlan 1 (some "B") 7
        10).completed = exampleState.completed ++ ["B"] ∧
    (updateResearchState (some exampleState) examplePlan 1 (some "B") 7
        10).remaining = exampleState.remaining.filter (fun c => c != "B") ∧
    "B" ∉ (updateResearchState (some exampleState) examplePlan 1 (some "B") 7
        10).remaining ∧
    (updateResearchState (some exampleState) examplePlan 1 (some "B") 7
        10).componentTimes "B" = some 7 ∧
    (updateResearchState (some exampleState) examplePlan 1 (some "B") 7
        10).inProgress =
      (updateResearchState (some exampleState) examplePlan 1 (some "B") 7
        10).remaining.head? :=
  updateResearchState_complete exampleState examplePlan 1 7 10 "B"
    (by simp [exampleState]) (by decide)

/-- Equation lemma: `updateResearchState` with `completedComponent = ""`
(JS-falsy) behaves like a plain tick. -/
theorem updateResearchState_empty_name_eq (s : ResearchState)
    (plan : ResearchPlan) (maxDuration timeSpent now : Int) :
    updateResearchState (some s) plan maxDuration (some "") timeSpent now =
      { s with
        currentTime := now
        elapsedTime := now - s.startTime
        remainingTime :=
          max 0 (maxDuration * 60 * 1000 - (now - s.startTime)) } := rfl

/-- Any update of an existing state sets `remainingTime` by the budget
formula and preserves `startTime`, on every branch. -/
theorem updateResearchState_update_core (s : ResearchState)
    (plan : ResearchPlan) (maxDuration : Int) (cc : Option String)
    (timeSpent now : Int) :
    (updateResearchState (some s) plan maxDuration cc timeSpent
        now).remainingTime =
      max 0 (maxDuration * 60 * 1000 - (now - s.startTime)) ∧
    (updateResearchState (some s) plan maxDuration cc timeSpent
        now).startTime = s.startTime := by
  match cc with
  | none =>
      rw [updateResearchState_tick_eq]
      exact ⟨rfl, rfl⟩
  | some name =>
      by_cases hn : name = ""
      · subst hn
        rw [updateResearchState_empty_name_eq]
        exact ⟨rfl, rfl⟩
      · rw [updateResearchState_complete_eq s plan maxDuration timeSpent now
          name hn]
        exact ⟨rfl, rfl⟩

/-- Counterexample to C4 as stated: a component named `""` sits in
`remaining`, but completing it changes nothing — JS truthiness of
`completedComponent` skips the whole completion branch, so `""` is neither
appended to `completed` nor removed from `remaining`, and no time is
recorded. -/
theorem updateResearchState_complete_empty_name_cex :
    "" ∈ (ResearchState.remaining
        { startTime := 0, currentTime := 0, elapsedTime := 0,
          remainingTime := 60000, completed := [], inProgress := some "",
          remaining := [""], componentTimes := fun _ => none }) ∧
    (updateResearchState
        (some { startTime := 0, currentTime := 0, elapsedTime := 0,
                remainingTime := 60000, completed := [], inProgress := some "",
                remaining := [""], componentTimes := fun _ => none })
        examplePlan 1 (some "") 5 10).completed = [] ∧
    "" ∈ (updateResearchState
        (some { startTime := 0, currentTime := 0, elapsedTime := 0,
                remainingTime := 60000, completed := [], inProgress := some "",
                remaining := [""], componentTimes := fun _ => none })
        examplePlan 1 (some "") 5 10).remaining ∧
    (updateResearchState
        (some { startTime := 0, currentTime := 0, elapsedTime := 0,
                remainingTime := 60000, completed := [], inProgress := some "",
                remaining := [""], componentTimes := fun _ => none })
        examplePlan 1 (some "") 5 10).componentTimes "" = none := by
  refine ⟨by simp, rfl, ?_, rfl⟩
  rw [updateResearchState_empty_name_eq]
  simp

/-- C5: every update of an existing state (tick or complete) sets
`remainingTime = max(0, maxDuration*60000 − (now − startTime))` and keeps
`startTime`; hence across two successive calls with non-decreasing clock
readings, `remainingTime` is non-increasing. -/
theorem updateResearchState_remainingTime (s : ResearchState)
    (plan : ResearchPlan) (maxDuration timeSpent now1 now2 : Int)
    (cc : Option String) (h : now1 ≤ now2) :
    (updateResearchState (some s) plan maxDuration cc timeSpent
        now1).remainingTime =
      max 0 (maxDuration * 60 * 1000 - (now1 - s.startTime)) ∧
    (updateResearchState (some s) plan maxDuration cc timeSpent
        now1).startTime = s.startTime ∧
    (updateResearchState
        (some (updateResearchState (some s) plan maxDuration cc timeSpent
          now1)) plan maxDuration none 0 now2).remainingTime ≤
      (updateResearchState (some s) plan maxDuration cc timeSpent
        now1).remainingTime := by
  obtain ⟨hrt1, hst1⟩ :=
    updateResearchState_update_core s plan maxDuration cc timeSpent now1
  refine ⟨hrt1, hst1, ?_⟩
  obtain ⟨hrt2, _⟩ := updateResearchState_update_core
    (updateResearchState (some s) plan maxDuration cc timeSpent now1)
    plan maxDuration none 0 now2
  rw [hrt2, hst1, hrt1]
  exact max_le_max le_rfl (by omega)

/-- Witness for C5 at concrete clock readings 1 ≤ 2. -/
theorem updateResearchState_remainingTime_witness :
    (updateResearchState (some exampleState) examplePlan 1 none 0
        1).remainingTime =
      max 0 (1 * 60 * 1000 - (1 - exampleState.startTime)) ∧
    (updateResearchState (some exampleState) examplePlan 1 none 0
        1).startTime = exampleState.startTime ∧
    (updateResearchState
        (some (updateResearchState (some exampleState) examplePlan 1 none 0
          1)) examplePlan 1 none 0 2).remainingTime ≤
      (updateResearchState (some exampleState) examplePlan 1 none 0
        1).remainingTime :=
  updateResearchState_remainingTime exampleState examplePlan 1 0 1 2 none
    (by decide)

/-- C6: whenever the planner LLM call fails, `createResearchPlan` returns
the minimal plan: exactly one component, named "Basic Research", whose sole
sub-question is the original query, with sequencing ["Basic Research"]; the
embedded function is total, so no exception escapes. -/
theorem createResearchPlan_llm_failure (query : String) (e : Unit) :
    (createResearchPlan query (Except.error e)).components.length = 1 ∧
    (createResearchPlan query (Except.error e)).components.map
        ResearchComponent.name = ["Basic Research"] ∧
    (createResearchPlan query (Except.error e)).components.map
        ResearchComponent.subQuestions = [[query]] ∧
    (createResearchPlan query (Except.error e)).sequencing =
      ["Basic Research"] ∧
    (createResearchPlan query (Except.error e)).mainObjective = query := by
  refine ⟨rfl, rfl, rfl, rfl, rfl⟩

/-- The depth-multiplier computation from `deepResearch`
(deep-research.ts lines 2021-2032): `averageImp = 100 / components.length`,
`dynamicMult = 0.5 + (imp / averageImp) * 0.75`, caller-supplied
multipliers (`componentDepthMultipliers[name] ?? dynamicMult`) take
precedence.  JS numbers are modelled as rationals; the source applies no
clamping. -/
def computeFinalDepthMults (components : List ResearchComponent)
    (importanceScores : String → Option ℚ)
    (componentDepthMultipliers : String → Option ℚ) : List (String × ℚ) :=
  let averageImp : ℚ := 100 / components.length
  components.map (fun c =>
    let imp := (importanceScores c.name).getD averageImp
    let dynamicMult := 0.5 + imp / averageImp * 0.75
    (c.name, (componentDepthMultipliers c.name).getD dynamicMult))

/-- Four-component plan used to exercise the multiplier computation. -/
def fourComponents : List ResearchComponent :=
  [{ name := "A", description := "a", subQuestions := ["q"],
     successCriteria := ["c"] },
   { name := "B", description := "b", subQuestions := ["q"],
     successCriteria := ["c"] },
   { name := "C", description := "c", subQuestions := ["q"],
     successCriteria := ["c"] },
   { name := "D", description := "d", subQuestions := ["q"],
     successCriteria := ["c"] }]

/-- Counterexample to C2 as stated: with four components and an importance
score of 100 for "A" (mean score 25), the code returns
`0.5 + (100/25)*0.75 = 3.5`, outside `[0.5, 2.0]` — there is no clamp in
the source, so the multiplier is not `clamp(0.5 + (score/mean)*0.75, 0.5,
2.0)` (which would be 2.0 here). -/
theorem computeFinalDepthMults_no_clamp_cex :
    computeFinalDepthMults fourComponents
        (fun n => if n = "A" then some 100 else none) (fun _ => none) =
      [("A", 7 / 2), ("B", 5 / 4), ("C", 5 / 4), ("D", 5 / 4)] ∧
    ¬ ((7 : ℚ) / 2 ≤ 2) ∧ (7 : ℚ) / 2 ≠ 2 := by
  refine ⟨?_, by norm_num, by norm_num⟩
  simp [computeFinalDepthMults, fourComponents]
  norm_num

/-- C2 (amended): the final depth multiplier is
`0.5 + (score / mean_score) * 0.75` with `mean_score = 100/|components|`,
with a caller-supplied multiplier taking precedence; no clamping is
applied, so the value is only bounded below by 0.5 (for non-negative
scores) and may exceed 2.0. -/
theorem computeFinalDepthMults_formula (components : List ResearchComponent)
    (importanceScores componentDepthMultipliers : String → Option ℚ)
    (c : ResearchComponent) (q : ℚ) (hc : c ∈ components)
    (hs : importanceScores c.name = some q) :
    (componentDepthMultipliers c.name = none →
      (c.name, 0.5 + q / (100 / components.length) * 0.75) ∈
        computeFinalDepthMults components importanceScores
          componentDepthMultipliers) ∧
    (∀ m, componentDepthMultipliers c.name = some m →
      (c.name, m) ∈
        computeFinalDepthMults components importanceScores
          componentDepthMultipliers) ∧
    (0 ≤ q → (1 / 2 : ℚ) ≤ 0.5 + q / (100 / components.length) * 0.75) := by
  refine ⟨?_, ?_, ?_⟩
  · intro hnone
    have := List.mem_map_of_mem (fun c : ResearchComponent =>
      let imp := (importanceScores c.name).getD (100 / components.length)
      let dynamicMult := 0.5 + imp / (100 / components.length) * 0.75
      (c.name, (componentDepthMultipliers c.name).getD dynamicMult)) hc
    simpa [computeFinalDepthMults, hnone, hs] using this
  · intro m hm
    have := List.mem_map_of_mem (fun c : ResearchComponent =>
      let imp := (importanceScores c.name).getD (100 / components.length)
      let dynamicMult := 0.5 + imp / (100 / components.length) * 0.75
      (c.name, (componentDepthMultipliers c.name).getD dynamicMult)) hc
    simpa [computeFinalDepthMults, hm, hs] using this
  · intro hq
    have havg : (0 : ℚ) ≤ 100 / components.length := by positivity
    have hdiv : (0 : ℚ) ≤ q / (100 / components.length) :=
      div_nonneg hq havg
    nlinarith

/-- Witness for C2 at a concrete input: two components, score 60 for "A",
no caller override. -/
theorem computeFinalDepthMults_formula_witness :
    ((fun _ : String => (none : Option ℚ)) "A" = none →
      ("A", 0.5 + (60 : ℚ) / (100 / (examplePlan.components.length : ℚ)) *
          0.75) ∈
        computeFinalDepthMults examplePlan.components
          (fun n => if n = "A" then some 60 else none)
          (fun _ => none)) ∧
    (∀ m, (fun _ : String => (none : Option ℚ)) "A" = some m →
      ("A", m) ∈
        computeFinalDepthMults examplePlan.components
          (fun n => if n = "A" then some 60 else none)
          (fun _ => none)) ∧
    (0 ≤ (60 : ℚ) →
      (1 / 2 : ℚ) ≤ 0.5 + (60 : ℚ) /
        (100 / (examplePlan.components.length : ℚ)) * 0.75) :=
  computeFinalDepthMults_formula examplePlan.components
    (fun n => if n = "A" then some 60 else none) (fun _ => none)
    { name := "A", description := "first", subQuestions := ["qa"],
      successCriteria := ["ca"] } 60
    (by simp [examplePlan]) (by simp)

/-- The saturation LLM response object validated by the zod schema in
`evaluateComponentSaturation` (deep-research.ts lines 764-773):
`coveragePercentage` is `z.number()` with no bounds, `gapDetails` is
optional. -/
structure SaturationEvalResponse where
  isSaturated : Bool
  coveragePercentage : ℚ
  coveredCriteria : List String
  remainingCriteria : List String
  gapDetails : Option (List (String × String))
  reasoning : String
deriving Repr, DecidableEq

/-- The value `evaluateComponentSaturation` resolves with. -/
structure SaturationResult where
  isSaturated : Bool
  coveragePercentage : ℚ
  coveredCriteria : List String
  remainingCriteria : List String
  reasoning : String
  gapDetails : List (String × String)
deriving Repr, DecidableEq

/-- `Math.ceil(totalPlannedIterations * 0.1)` for a natural iteration count:
the ceiling of n/10. -/
def saturationMinIterations (totalPlannedIterations : ℕ) : ℕ :=
  (totalPlannedIterations + 9) / 10

/-- `evaluateComponentSaturation` from deep-research.ts (lines 687-804), as
a function of the saturation LLM response.  The `.ok` branch forwards the
response fields unvalidated (`gapDetails || {}`); the catch branch returns
the continue-semantics value. -/
def evaluateComponentSaturation (component : ResearchComponent)
    (learnings : List String)
    (completedIterations totalPlannedIterations : ℕ)
    (llmResponse : Except Unit SaturationEvalResponse) : SaturationResult :=
  if completedIterations < saturationMinIterations totalPlannedIterations then
    { isSaturated := false
      coveragePercentage := 0
      coveredCriteria := []
      remainingCriteria := component.successCriteria
      reasoning := "Minimal iteration threshold not met"
      gapDetails := component.successCriteria.map
        (fun c => (c, "No coverage yet")) }
  else
    match llmResponse with
    | Except.ok e =>
        { isSaturated := e.isSaturated
          coveragePercentage := e.coveragePercentage
          coveredCriteria := e.coveredCriteria
          remainingCriteria := e.remainingCriteria
          reasoning := e.reasoning
          gapDetails := e.gapDetails.getD [] }
    | Except.error _ =>
        { isSaturated := false
          coveragePercentage := 0
          coveredCriteria := []
          remainingCriteria := component.successCriteria
          reasoning := "Evaluation failed; continuing"
          gapDetails := component.successCriteria.map
            (fun c => (c, "Unknown gap; continuing")) }

/-- Counterexample to C3 as stated: past the minimal-iteration gate, the
LLM response is forwarded without range validation, so a response claiming
150% coverage is returned as-is — `coveragePercentage` is not always in
`[0,100]`. -/
theorem evaluateComponentSaturation_range_cex :
    (evaluateComponentSaturation
        { name := "A", description := "a", subQuestions := ["q"],
          successCriteria := ["c"] }
        [] 1 1
        (Except.ok
          { isSaturated := false, coveragePercentage := 150,
            coveredCriteria := [], remainingCriteria := [],
            gapDetails := none,
            reasoning := "r" })).coveragePercentage = 150 ∧
    ¬ ((150 : ℚ) ≤ 100) := by
  refine ⟨rfl, by norm_num⟩

/-- C3 (amended): `coveragePercentage` is 0 (hence in `[0,100]`) on the
minimal-iteration short-circuit and on LLM failure, but on LLM success it
equals the response value unvalidated; when
`completedIterations < ⌈0.1 × totalPlannedIterations⌉`, the result is
`isSaturated = false`, coverage 0, with every success criterion mapped to
"No coverage yet". -/
theorem evaluateComponentSaturation_amended (component : ResearchComponent)
    (learnings : List String) (ci tpi : ℕ)
    (resp : Except Unit SaturationEvalResponse) :
    (ci < saturationMinIterations tpi →
      (evaluateComponentSaturation component learnings ci tpi
          resp).isSaturated = false ∧
      (evaluateComponentSaturation component learnings ci tpi
          resp).coveragePercentage = 0 ∧
      (evaluateComponentSaturation component learnings ci tpi
          resp).gapDetails =
        component.successCriteria.map (fun c => (c, "No coverage yet")) ∧
      ∀ crit ∈ component.successCriteria,
        (crit, "No coverage yet") ∈
          (evaluateComponentSaturation component learnings ci tpi
            resp).gapDetails) ∧
    (resp = Except.error () →
      (evaluateComponentSaturation component learnings ci tpi
          resp).coveragePercentage = 0 ∧
      (evaluateComponentSaturation component learnings ci tpi
          resp).isSaturated = false) ∧
    (¬ ci < saturationMinIterations tpi →
      ∀ r, resp = Except.ok r →
        (evaluateComponentSaturation component learnings ci tpi
            resp).coveragePercentage = r.coveragePercentage) := by
  refine ⟨?_, ?_, ?_⟩
  · intro hlt
    unfold evaluateComponentSaturation
    rw [if_pos hlt]
    exact ⟨rfl, rfl, rfl, fun crit hcrit =>
      List.mem_map_of_mem (fun c => (c, "No coverage yet")) hcrit⟩
  · intro herr
    subst herr
    unfold evaluateComponentSaturation
    by_cases hlt : ci < saturationMinIterations tpi
    · rw [if_pos hlt]
      exact ⟨rfl, rfl⟩
    · rw [if_neg hlt]
      exact ⟨rfl, rfl⟩
  · intro hge r hr
    subst hr
    unfold evaluateComponentSaturation
    rw [if_neg hge]

/-- Witness for C3 at concrete inputs: 0 of 5 iterations short-circuits,
and an error response yields coverage 0. -/
theorem evaluateComponentSaturation_amended_witness :
    (evaluateComponentSaturation
        { name := "A", description := "a", subQuestions := ["q"],
          successCriteria := ["c1", "c2"] } [] 0 5
        (Except.error ())).isSaturated = false ∧
    (evaluateComponentSaturation
        { name := "A", description := "a", subQuestions := ["q"],
          successCriteria := ["c1", "c2"] } [] 0 5
        (Except.error ())).coveragePercentage = 0 ∧
    ("c1", "No coverage yet") ∈
      (evaluateComponentSaturation
        { name := "A", description := "a", subQuestions := ["q"],
          successCriteria := ["c1", "c2"] } [] 0 5
        (Except.error ())).gapDetails := by
  have h := (evaluateComponentSaturation_amended
    { name := "A", description := "a", subQuestions := ["q"],
      successCriteria := ["c1", "c2"] } [] 0 5 (Except.error ())).1
    (by decide)
  exact ⟨h.1, h.2.1, h.2.2.2 "c1" (by simp)⟩

/-- One entry of the sub-query LLM response
(`{query, reasoning}` in the zod schema of `generateSubQueries`). -/
structure SubQueryItem where
  query : String
  reasoning : String
deriving Repr, DecidableEq

/-- The output post-processing of `generateSubQueries`
(deep-research.ts line 1382): `queries.map(q => q.query).slice(0, count)`.
The 2-5-word / no-operator rules appear only in the prompt text; nothing is
validated. -/
def generateSubQueries (count : ℕ) (llmQueries : List SubQueryItem) :
    List String :=
  (llmQueries.map (fun q => q.query)).take count

/-- Helper for `wordCount`: counts maximal non-space runs. -/
def countWordsAux : List Char → Bool → ℕ
  | [], _ => 0
  | c :: rest, inWord =>
      if c = ' ' then countWordsAux rest false
      else (if inWord then 0 else 1) + countWordsAux rest true

/-- Number of whitespace-separated tokens of a query string
(`s.split(" ").filter(w => w.trim().length > 0).length`). -/
def wordCount (s : String) : ℕ := countWordsAux s.data false

/-- Counterexample to C7 as stated: a response containing the single-word
query "a" is returned verbatim, violating the 2-5-token requirement. -/
theorem generateSubQueries_word_rule_cex :
    generateSubQueries 3 [{ query := "a", reasoning := "r" }] = ["a"] ∧
    wordCount "a" = 1 ∧ ¬ (2 ≤ wordCount "a") := by
  refine ⟨rfl, by decide, by decide⟩

/-- C7 (amended): the generator returns at most `count` queries — the first
`count` of the LLM response, verbatim; the word-count and operator
restrictions are requested in the prompt but not enforced on the output. -/
theorem generateSubQueries_amended (count : ℕ)
    (llmQueries : List SubQueryItem) :
    (generateSubQueries count llmQueries).length ≤ count ∧
    ∀ q ∈ generateSubQueries count llmQueries,
      q ∈ llmQueries.map (fun x => x.query) := by
  constructor
  · calc (generateSubQueries count llmQueries).length
        = min count (llmQueries.map (fun q => q.query)).length := by
          simp [generateSubQueries]
      _ ≤ count := min_le_left _ _
  · intro q hq
    exact List.mem_of_mem_take hq

/-- Witness for C7 at a concrete input. -/
theorem generateSubQueries_amended_witness :
    (generateSubQueries 2 [{ query := "x y", reasoning := "r" }]).length ≤
      2 ∧
    "x y" ∈ List.map (fun x => x.query)
      [({ query := "x y", reasoning := "r" } : SubQueryItem)] :=
  ⟨(generateSubQueries_amended 2 [{ query := "x y", reasoning := "r" }]).1,
   (generateSubQueries_amended 2 [{ query := "x y", reasoning := "r" }]).2
     "x y" (by decide)⟩

/-- The value a `deepResearchQuery` call resolves with
(`{learnings, visitedUrls}`). -/
structure ResearchOutcome where
  learnings : List String
  visitedUrls : List String
deriving Repr, DecidableEq

/-- Oracles for the quick pass (`initialParallelResearch`).  `investigate`
is the awaited `deepResearchQuery` call of the worker for component index
`k`, given its first sub-question; its search/LLM failures propagate as a
rejected promise, hence `Except`.  `summarize` is the per-worker summary
LLM call (caught in the source).  `clock` supplies the two `Date.now()`
readings of worker `k` at indices `2k` and `2k+1`. -/
structure QuickPassEnv where
  investigate : ℕ → String → Except Unit ResearchOutcome
  summarize : ℕ → Except Unit String
  clock : ℕ → Int

/-- `component.subQuestions[0] || component.description` (JS `||`:
an empty first sub-question falls through to the description). -/
def quickPassQuestion (c : ResearchComponent) : String :=
  match c.subQuestions with
  | [] => c.description
  | q :: _ => if q = "" then c.description else q

/-- One quick-pass worker (the async closure in `initialParallelResearch`,
deep-research.ts lines 1780-1837): investigation failure rejects the
worker's promise; a summary-LLM failure is caught and replaced by the
placeholder `"Initial pass for <name>"`. -/
def quickWorker (env : QuickPassEnv) (k : ℕ) (c : ResearchComponent) :
    Except Unit (String × ComponentResult) :=
  match env.investigate k (quickPassQuestion c) with
  | Except.error e => Except.error e
  | Except.ok mini =>
      let summary :=
        match env.summarize k with
        | Except.ok s => s
        | Except.error _ => "Initial pass for " ++ c.name
      Except.ok (c.name,
        { learnings := mini.learnings
          visitedUrls := mini.visitedUrls
          summary := summary
          timeSpent := env.clock (2 * k + 1) - env.clock (2 * k) })

/-- `Promise.all(tasks)`: resolves with all worker results only if every
worker resolves; rejects as soon as any worker rejects. -/
def quickPassTasks (env : QuickPassEnv) :
    ℕ → List ResearchComponent → Except Unit (List (String × ComponentResult))
  | _, [] => Except.ok []
  | k, c :: rest =>
      match quickWorker env k c with
      | Except.error e => Except.error e
      | Except.ok r =>
          match quickPassTasks env (k + 1) rest with
          | Except.error e => Except.error e
          | Except.ok rs => Except.ok (r :: rs)

/-- `initialParallelResearch` (deep-research.ts lines 1755-1849): one
worker per plan component, awaited jointly via `Promise.all`. -/
def initialParallelResearch (env : QuickPassEnv) (plan : ResearchPlan) :
    Except Unit (List (String × ComponentResult)) :=
  quickPassTasks env 0 plan.components

/-- Quick-pass environment in which worker 0 fails and worker 1
succeeds. -/
def quickPassFailEnv : QuickPassEnv :=
  { investigate := fun k _q =>
      if k = 0 then Except.error ()
      else Except.ok { learnings := ["lb"], visitedUrls := ["ub"] }
    summarize := fun _ => Except.ok "s"
    clock := fun n => n }

/-- Counterexample to C1 as stated: with two components, worker 0 failing
and worker 1 succeeding, `Promise.all` rejects and the quick pass returns
nothing at all — no `ComponentResult` is produced for component "B" even
though its investigation succeeded.  Only summary-synthesis failures are
isolated in the source; investigation failures abort the whole pass. -/
theorem initialParallelResearch_isolation_cex :
    initialParallelResearch quickPassFailEnv examplePlan =
      Except.error () ∧
    quickPassFailEnv.investigate 1 "qb" =
      Except.ok { learnings := ["lb"], visitedUrls := ["ub"] } :=
  ⟨rfl, rfl⟩

/-- C1 (amended): when every worker's investigation succeeds, the quick
pass resolves with one `(name, ComponentResult)` per component in order,
carrying that worker's learnings and URLs, and a component whose summary
synthesis fails gets the placeholder summary "Initial pass for <name>";
but if any investigation fails, the joint `Promise.all` rejects and no
partial results are returned. -/
theorem initialParallelResearch_all_ok (env : QuickPassEnv)
    (plan : ResearchPlan)
    (h : ∀ k q, ∃ mini, env.investigate k q = Except.ok mini) :
    ∃ rs, initialParallelResearch env plan = Except.ok rs ∧
      rs.length = plan.components.length ∧
      ∀ i, i < plan.components.length →
        ∃ c mini r, plan.components[i]? = some c ∧
          env.investigate i (quickPassQuestion c) = Except.ok mini ∧
          rs[i]? = some (c.name, r) ∧
          r.learnings = mini.learnings ∧
          r.visitedUrls = mini.visitedUrls ∧
          (env.summarize i = Except.error () →
            r.summary = "Initial pass for " ++ c.name) := by
  suffices hgen : ∀ (comps : List ResearchComponent) (k : ℕ),
      ∃ rs, quickPassTasks env k comps = Except.ok rs ∧
        rs.length = comps.length ∧
        ∀ i, i < comps.length →
          ∃ c mini r, comps[i]? = some c ∧
            env.investigate (k + i) (quickPassQuestion c) = Except.ok mini ∧
            rs[i]? = some (c.name, r) ∧
            r.learnings = mini.learnings ∧
            r.visitedUrls = mini.visitedUrls ∧
            (env.summarize (k + i) = Except.error () →
              r.summary = "Initial pass for " ++ c.name) by
    obtain ⟨rs, h1, h2, h3⟩ := hgen plan.components 0
    exact ⟨rs, h1, h2, fun i hi => by simpa using h3 i hi⟩
  intro comps
  induction comps with
  | nil => exact fun k => ⟨[], rfl, rfl, fun i hi => absurd hi (by simp)⟩
  | cons c rest ih =>
      intro k
      obtain ⟨mini, hmini⟩ := h k (quickPassQuestion c)
      obtain ⟨rs, hrs, hlen, hidx⟩ := ih (k + 1)
      refine ⟨(c.name,
        { learnings := mini.learnings
          visitedUrls := mini.visitedUrls
          summary :=
            match env.summarize k with
            | Except.ok s => s
            | Except.error _ => "Initial pass for " ++ c.name
          timeSpent := env.clock (2 * k + 1) - env.clock (2 * k) }) :: rs,
        ?_, by simpa using hlen, ?_⟩
      · simp only [quickPassTasks, quickWorker, hmini, hrs]
      · intro i hi
        match i with
        | 0 =>
            refine ⟨c, mini,
              { learnings := mini.learnings
                visitedUrls := mini.visitedUrls
                summary :=
                  match env.summarize k with
                  | Except.ok s => s
                  | Except.error _ => "Initial pass for " ++ c.name
                timeSpent := env.clock (2 * k + 1) - env.clock (2 * k) },
              by simp, by simpa using hmini, by simp, rfl, rfl, ?_⟩
            intro hsum
            have hsum2 : env.summarize k = Except.error () := by
              simpa using hsum
            rw [hsum2]
        | Nat.succ j =>
            obtain ⟨c2, mini2, r2, hc2, hmini2, hr2, hl2, hu2, hs2⟩ :=
              hidx j (by simp only [List.length_cons] at hi; omega)
            refine ⟨c2, mini2, r2, by simpa using hc2, ?_, by simpa using hr2,
              hl2, hu2, ?_⟩
            · have : k + 1 + j = k + (j + 1) := by omega
              rwa [this] at hmini2
            · have : k + 1 + j = k + (j + 1) := by omega
              rwa [this] at hs2

/-- Quick-pass environment in which every investigation succeeds but every
summary LLM call fails. -/
def quickPassOkEnv : QuickPassEnv :=
  { investigate := fun _ _ =>
      Except.ok { learnings := ["l"], visitedUrls := ["u"] }
    summarize := fun _ => Except.error ()
    clock := fun n => n }

/-- Witness for C1 at a concrete input: all investigations succeed, all
summary calls fail. -/
theorem initialParallelResearch_all_ok_witness :
    ∃ rs, initialParallelResearch quickPassOkEnv examplePlan =
        Except.ok rs ∧
      rs.length = examplePlan.components.length ∧
      ∀ i, i < examplePlan.components.length →
        ∃ c mini r, examplePlan.components[i]? = some c ∧
          quickPassOkEnv.investigate i (quickPassQuestion c) =
            Except.ok mini ∧
          rs[i]? = some (c.name, r) ∧
          r.learnings = mini.learnings ∧
          r.visitedUrls = mini.visitedUrls ∧
          (quickPassOkEnv.summarize i = Except.error () →
            r.summary = "Initial pass for " ++ c.name) :=
  initialParallelResearch_all_ok quickPassOkEnv examplePlan
    (fun _k _q => ⟨{ learnings := ["l"], visitedUrls := ["u"] }, rfl⟩)


/-- Oracles for the `researchComponent` loop (deep-research.ts lines
813-1022).  `clock` supplies successive `Date.now()` readings (index 0 is
`componentStartTime`; each loop pass reads the state-update time, then
`iterationStart`, then `iterationEnd`; the final index is
`componentEndTime`).  `queryResult` is the awaited `deepResearchQuery`
value for the k-th processed sub-question, `saturationResp` the saturation
LLM response after it, and `summaryResponse` the component-summary LLM
call (caught in the source). -/
structure CompIterEnv where
  clock : ℕ → Int
  queryResult : ℕ → ResearchOutcome
  saturationResp : ℕ → Except Unit SaturationEvalResponse
  summaryResponse : Except Unit String

/-- Accumulator of the `researchComponent` loop: recorded iteration times
(pushed into `stats.iterationTimes`), the component's learnings and URLs,
the clock cursor, and `completedIterations`. -/
structure RcAcc where
  times : List Int
  learnings : List String
  urls : List String
  ctr : ℕ
  k : ℕ
deriving Repr

/-- One completed pass of the `researchComponent` loop body: the iteration
time `iterationEnd - iterationStart` (clock indices `ctr+1`, `ctr+2`) is
recorded, the `deepResearchQuery` learnings and URLs are appended, and
`completedIterations` increments. -/
def rcStep (env : CompIterEnv) (acc : RcAcc) : RcAcc :=
  { times := acc.times ++
      [env.clock (acc.ctr + 2) - env.clock (acc.ctr + 1)]
    learnings := acc.learnings ++ (env.queryResult acc.k).learnings
    urls := acc.urls ++ (env.queryResult acc.k).visitedUrls
    ctr := acc.ctr + 3
    k := acc.k + 1 }

/-- The sub-question loop of `researchComponent` (deep-research.ts lines
867-961): per question it recomputes `remainingTime` from a fresh
`Date.now()` (index `ctr`), breaking when `< 20s`; otherwise it performs
`rcStep` and breaks when the saturation check says saturated or coverage
≥ 75. -/
def rcLoop (env : CompIterEnv) (component : ResearchComponent)
    (totalPlannedIterations : ℕ) (startTime maxDuration : Int) :
    List String → RcAcc → RcAcc
  | [], acc => acc
  | _q :: rest, acc =>
      if max 0 (maxDuration * 60 * 1000 - (env.clock acc.ctr - startTime)) <
          20000 then
        { acc with ctr := acc.ctr + 1 }
      else
        if (evaluateComponentSaturation component (rcStep env acc).learnings
              (rcStep env acc).k totalPlannedIterations
              (env.saturationResp acc.k)).isSaturated = true ∨
            75 ≤ (evaluateComponentSaturation component
              (rcStep env acc).learnings (rcStep env acc).k
              totalPlannedIterations
              (env.saturationResp acc.k)).coveragePercentage then
          rcStep env acc
        else rcLoop env component totalPlannedIterations startTime maxDuration
          rest (rcStep env acc)

/-- `researchComponent` (deep-research.ts lines 813-1022), restricted to
the observables the timing claim is about: the returned `ComponentResult`
(`timeSpent = componentEndTime - componentStartTime`, clock indices
`acc.ctr` and 0) and the list of iteration times recorded for this
component.  `totalPlannedIterations` is `subQuestions.length`; a summary
LLM failure falls back to `"Findings for <name>"`. -/
def researchComponentTimed (env : CompIterEnv)
    (component : ResearchComponent) (subQuestions : List String)
    (state : ResearchState) (maxDuration : Int) :
    ComponentResult × List Int :=
  let acc := rcLoop env component subQuestions.length state.startTime
    maxDuration subQuestions
    { times := [], learnings := [], urls := [], ctr := 1, k := 0 }
  ({ learnings := acc.learnings
     visitedUrls := acc.urls
     summary :=
       match env.summaryResponse with
       | Except.ok s => s
       | Except.error _ => "Findings for " ++ component.name
     timeSpent := env.clock acc.ctr - env.clock 0 },
   acc.times)

/-- The merge in `deepResearch` (deep-research.ts lines 2098-2103):
`componentResults[name]` combines the quick-pass data with the deep pass,
`timeSpent = quickData.timeSpent + deepRes.timeSpent`. -/
def mergeComponentResults (quickData deepRes : ComponentResult) :
    ComponentResult :=
  { learnings := quickData.learnings ++ deepRes.learnings
    visitedUrls := quickData.visitedUrls ++ deepRes.visitedUrls
    summary := deepRes.summary
    timeSpent := quickData.timeSpent + deepRes.timeSpent }

/-- Environment for the C8 counterexample: the clock advances by 10 per
reading. -/
def timeCexEnv : CompIterEnv :=
  { clock := fun n => 10 * n
    queryResult := fun _ => { learnings := ["l"], visitedUrls := ["u"] }
    saturationResp := fun _ => Except.error ()
    summaryResponse := Except.ok "s" }

/-- Counterexample to C8 as stated: with one sub-question and a clock that
advances 10ms per reading, the single recorded iteration time is 10ms but
`timeSpent` is 40ms (wall clock from `componentStartTime` to
`componentEndTime`, which also covers the state update, the saturation
check and the summary call), and after the quick-pass merge it is 45ms —
not the sum of the iteration times. -/
theorem researchComponent_timeSpent_cex :
    (researchComponentTimed timeCexEnv
        { name := "A", description := "a", subQuestions := ["q2"],
          successCriteria := ["c"] }
        ["q2"] exampleState 30).2 = [10] ∧
    (researchComponentTimed timeCexEnv
        { name := "A", description := "a", subQuestions := ["q2"],
          successCriteria := ["c"] }
        ["q2"] exampleState 30).1.timeSpent = 40 ∧
    (mergeComponentResults
        { learnings := [], visitedUrls := [], summary := "", timeSpent := 5 }
        (researchComponentTimed timeCexEnv
          { name := "A", description := "a", subQuestions := ["q2"],
            successCriteria := ["c"] }
          ["q2"] exampleState 30).1).timeSpent = 45 ∧
    (40 : Int) ≠ 10 ∧ (45 : Int) ≠ 10 := by
  refine ⟨?_, ?_, ?_, by decide, by decide⟩ <;>
    simp [researchComponentTimed, rcLoop, rcStep, timeCexEnv, exampleState,
      mergeComponentResults, evaluateComponentSaturation,
      saturationMinIterations] <;> norm_num

/-- C8 (amended): `componentResults[c].timeSpent` is the end-to-end
elapsed wall-clock time of the component (quick-pass time plus
`componentEndTime - componentStartTime` of the deep pass), not the sum of
its recorded iteration times; under a monotone clock (and a non-negative
quick-pass time) it is an upper bound for that sum, strict whenever time
passes outside the timed `deepResearchQuery` calls. -/
theorem researchComponent_timeSpent_bound (env : CompIterEnv)
    (component : ResearchComponent) (subQuestions : List String)
    (state : ResearchState) (maxDuration : Int) (quickData : ComponentResult)
    (hmono : ∀ i j : ℕ, i ≤ j → env.clock i ≤ env.clock j)
    (hquick : 0 ≤ quickData.timeSpent) :
    (researchComponentTimed env component subQuestions state
        maxDuration).2.sum ≤
      (researchComponentTimed env component subQuestions state
        maxDuration).1.timeSpent ∧
    (researchComponentTimed env component subQuestions state
        maxDuration).2.sum ≤
      (mergeComponentResults quickData
        (researchComponentTimed env component subQuestions state
          maxDuration).1).timeSpent := by
  have key : ∀ (qs : List String) (acc : RcAcc),
      acc.ctr ≤ (rcLoop env component subQuestions.length state.startTime
          maxDuration qs acc).ctr ∧
      (rcLoop env component subQuestions.length state.startTime maxDuration
          qs acc).times.sum ≤
        acc.times.sum +
          (env.clock (rcLoop env component subQuestions.length
              state.startTime maxDuration qs acc).ctr -
            env.clock acc.ctr) := by
    intro qs
    induction qs with
    | nil =>
        intro acc
        rw [rcLoop]
        exact ⟨le_rfl, by simp⟩
    | cons q rest ih =>
        intro acc
        rw [rcLoop]
        by_cases h1 : max 0 (maxDuration * 60 * 1000 -
            (env.clock acc.ctr - state.startTime)) < 20000
        · rw [if_pos h1]
          have hc := hmono acc.ctr (acc.ctr + 1) (by omega)
          exact ⟨show acc.ctr ≤ acc.ctr + 1 by omega, by simp; linarith⟩
        · rw [if_neg h1]
          have ha := hmono acc.ctr (acc.ctr + 1) (by omega)
          have hb := hmono (acc.ctr + 2) (acc.ctr + 3) (by omega)
          have hstep : (rcStep env acc).times.sum ≤
              acc.times.sum +
                (env.clock (rcStep env acc).ctr - env.clock acc.ctr) := by
            simp [rcStep, List.sum_append]
            linarith
          by_cases h2 : (evaluateComponentSaturation component
                (rcStep env acc).learnings (rcStep env acc).k
                subQuestions.length
                (env.saturationResp acc.k)).isSaturated = true ∨
              75 ≤ (evaluateComponentSaturation component
                (rcStep env acc).learnings (rcStep env acc).k
                subQuestions.length
                (env.saturationResp acc.k)).coveragePercentage
          · rw [if_pos h2]
            exact ⟨by simp [rcStep], hstep⟩
          · rw [if_neg h2]
            obtain ⟨ihc, ihs⟩ := ih (rcStep env acc)
            have hcs : (rcStep env acc).ctr = acc.ctr + 3 := rfl
            have hmid : env.clock (rcStep env acc).ctr ≤
                env.clock (rcLoop env component subQuestions.length
                  state.startTime maxDuration rest (rcStep env acc)).ctr :=
              hmono _ _ ihc
            refine ⟨by omega, ?_⟩
            have hstepsum : (rcStep env acc).times.sum =
                acc.times.sum +
                  (env.clock (acc.ctr + 2) - env.clock (acc.ctr + 1)) := by
              simp [rcStep, List.sum_append]
            rw [hstepsum] at ihs
            rw [hcs] at ihs
            linarith
  obtain ⟨_, hsum⟩ := key subQuestions
    { times := [], learnings := [], urls := [], ctr := 1, k := 0 }
  have h01 := hmono 0 1 (by omega)
  constructor
  · simp only [researchComponentTimed]
    simp only [List.sum_nil] at hsum
    linarith
  · simp only [researchComponentTimed, mergeComponentResults]
    simp only [List.sum_nil] at hsum
    linarith

/-- Witness for C8 at a concrete monotone clock. -/
theorem researchComponent_timeSpent_bound_witness :
    (researchComponentTimed timeCexEnv
        { name := "A", description := "a", subQuestions := ["q2"],
          successCriteria := ["c"] }
        ["q2"] exampleState 30).2.sum ≤
      (researchComponentTimed timeCexEnv
        { name := "A", description := "a", subQuestions := ["q2"],
          successCriteria := ["c"] }
        ["q2"] exampleState 30).1.timeSpent ∧
    (researchComponentTimed timeCexEnv
        { name := "A", description := "a", subQuestions := ["q2"],
          successCriteria := ["c"] }
        ["q2"] exampleState 30).2.sum ≤
      (mergeComponentResults
        { learnings := [], visitedUrls := [], summary := "", timeSpent := 5 }
        (researchComponentTimed timeCexEnv
          { name := "A", description := "a", subQuestions := ["q2"],
            successCriteria := ["c"] }
          ["q2"] exampleState 30).1).timeSpent :=
  researchComponent_timeSpent_bound timeCexEnv
    { name := "A", description := "a", subQuestions := ["q2"],
      successCriteria := ["c"] }
    ["q2"] exampleState 30
    { learnings := [], visitedUrls := [], summary := "", timeSpent := 5 }
    (fun i j hij => by simp only [timeCexEnv]; omega)
    (by norm_num)

/-- One entry of the Firecrawl search response
(`{ data: [{ url?, markdown? }] }`). -/
structure SearchItem where
  url : Option String
  markdown : Option String
deriving Repr, DecidableEq

/-- The Firecrawl search response used by `deepResearchQuery`. -/
structure SearchResponse where
  data : List SearchItem
deriving Repr, DecidableEq

/-- `compact(searchResult.data.map(r => r.markdown))`: drops missing and
(JS-falsy) empty markdown bodies. -/
def compactMarkdowns (data : List SearchItem) : List String :=
  data.filterMap (fun r =>
    match r.markdown with
    | some m => if m = "" then none else some m
    | none => none)

/-- `result.data.some(r => r.markdown && r.markdown.trim().length > 100)`. -/
def hasMeaningfulData (data : List SearchItem) : Bool :=
  data.any (fun r =>
    match r.markdown with
    | some m => decide (m ≠ "" ∧ 100 < m.trim.length)
    | none => false)

/-- `summarizeSearchResults` (deep-research.ts lines 611-678) as a function
of the summarizer LLM response: contents are compacted and trimmed
(`trimPrompt(content, 25000)` lives in ai/providers.ts, outside src/, and
is modelled from the spec as an arbitrary per-content trimming function —
it cannot change whether the content list is empty); with no content the
LLM is not called and `[]` is returned. -/
def summarizeSearchResults (trimContent : String → String)
    (searchResult : SearchResponse) (llmLearnings : List String) :
    List String :=
  let textContents := (compactMarkdowns searchResult.data).map trimContent
  if textContents.length = 0 then [] else llmLearnings

/-- The analysis object of the zod schema in `analyzeAndPlan`. -/
structure AnalysisResponse where
  summary : String
  valuable : Bool
  gaps : List String
  shouldContinue : Bool
  nextSearchTopic : String
deriving Repr, DecidableEq

/-- The value `analyzeAndPlan` returns (the `valuable` flag is consumed
internally). -/
structure AnalysisOut where
  summary : String
  gaps : List String
  shouldContinue : Bool
  nextSearchTopic : String
deriving Repr, DecidableEq

/-- JS `s.split(" ")` at character level (keeps empty fragments). -/
def splitOnSpaceChar (cs : List Char) : List (List Char) :=
  cs.foldr
    (fun c acc =>
      match acc with
      | [] => if c = ' ' then [[], []] else [[c]]
      | w :: ws => if c = ' ' then [] :: w :: ws else (c :: w) :: ws)
    [[]]

/-- `query.split(" ").slice(0, n).join(" ")`. -/
def firstWords (n : ℕ) (q : String) : String :=
  String.intercalate " "
    (((splitOnSpaceChar q.data).map (fun w => String.mk w)).take n)

/-- `analyzeAndPlan` (deep-research.ts lines 510-602) as a function of the
analysis LLM response: empty/short contents short-circuit locally to a
continue decision with topic `<first 3 words> basics`; `valuable = false`
forces `shouldContinue = true` with a simplified fallback topic
(`analysis.nextSearchTopic.trim() || <first 3 words>`); LLM failure is
caught and also returns continue semantics. -/
def analyzeAndPlan (textContents : List String) (query : String)
    (llmResponse : Except Unit AnalysisResponse) : AnalysisOut :=
  if textContents.length = 0 ∨
      textContents.all (fun t => t = "" || decide (t.trim.length < 50)) then
    { summary := "No relevant content discovered in this search."
      gaps := ["Complete coverage of this topic"]
      shouldContinue := true
      nextSearchTopic := firstWords 3 query ++ " basics" }
  else
    match llmResponse with
    | Except.ok a =>
        if a.valuable = false then
          { summary := a.summary
            gaps := a.gaps
            shouldContinue := true
            nextSearchTopic :=
              if a.nextSearchTopic.trim ≠ "" then a.nextSearchTopic.trim
              else firstWords 3 query }
        else
          { summary := a.summary
            gaps := a.gaps
            shouldContinue := a.shouldContinue
            nextSearchTopic := a.nextSearchTopic }
    | Except.error _ =>
        { summary := "Error analyzing results"
          gaps := ["No coverage yet"]
          shouldContinue := true
          nextSearchTopic := firstWords 3 query }

/-- Case-insensitive match of the regex `site:[^\s]+` at the head of the
character list. -/
def matchesSite : List Char → Bool
  | c1 :: c2 :: c3 :: c4 :: c5 :: d :: _ =>
      (c1 = 's' || c1 = 'S') && (c2 = 'i' || c2 = 'I') &&
      (c3 = 't' || c3 = 'T') && (c4 = 'e' || c4 = 'E') && (c5 = ':') &&
      !d.isWhitespace
  | _ => false

/-- Skips a matched `site:[^\s]+` occurrence. -/
def afterSite (cs : List Char) : List Char :=
  (cs.drop 5).dropWhile (fun x => !x.isWhitespace)

/-- Left-to-right global replacement of `site:[^\s]+` by `""` (fuelled by
the input length; each step consumes at least one character). -/
def stripSiteOps : ℕ → List Char → List Char
  | 0, cs => cs
  | _ + 1, [] => []
  | fuel + 1, c :: cs =>
      if matchesSite (c :: cs) then stripSiteOps fuel (afterSite (c :: cs))
      else c :: stripSiteOps fuel cs

/-- The fallback-query computation of `deepResearchQuery` (deep-research.ts
lines 1180-1184): strip `site:` operators and double quotes, and truncate
to the first 4 words when more than 4 remain. -/
def simplifyFallbackQuery (sq : String) : String :=
  let cs2 := (stripSiteOps sq.data.length sq.data).filter
    (fun c => c ≠ Char.ofNat 34)
  let words := ((splitOnSpaceChar cs2).map (fun w => String.mk w)).filter
    (fun w => decide (0 < w.trim.length))
  if 4 < words.length then String.intercalate " " (words.take 4)
  else String.mk cs2

/-- `remainingTime && remainingTime < 20_000`: JS truthiness makes a
remaining time of exactly 0 fail the guard. -/
def timeGuard (remainingTime : Option Int) : Bool :=
  match remainingTime with
  | some r => decide (r ≠ 0) && decide (r < 20000)
  | none => false

/-- Oracles for `deepResearchQuery`: per-call LLM responses for sub-query
generation, summarization, analysis and mid-depth saturation, the search
service (indexed by call number and given the query string actually
passed), and the spec-modelled `trimPrompt`. -/
structure QueryEnv where
  subQueryResp : ℕ → List SubQueryItem
  search : ℕ → String → SearchResponse
  summarizeResp : ℕ → List String
  analysisResp : ℕ → Except Unit AnalysisResponse
  saturationResp : ℕ → Except Unit SaturationEvalResponse
  trimContent : String → String

/-- Oracle call counters, one per call kind, incremented in call order. -/
structure QCtrs where
  sq : ℕ
  se : ℕ
  su : ℕ
  an : ℕ
  sa : ℕ
deriving Repr, DecidableEq

/-- Execution state of `deepResearchQuery`: the (mutable) active query,
`combinedLearnings`, `combinedUrls`, the local `gapDetails`, and the
oracle cursors. -/
structure QState where
  query : String
  combinedLearnings : List String
  combinedUrls : List String
  gapDetails : List (String × String)
  ctrs : QCtrs

/-- The search of one sub-query with its fallback retry (deep-research.ts
lines 1166-1204): `none` means both attempts lacked meaningful markdown
and the sub-query is skipped; otherwise the winning response and its
`foundUrls` are returned, together with the advanced search-call
cursor. -/
def searchStep (env : QueryEnv) (se : ℕ) (sq : String) :
    Option (SearchResponse × List String) × ℕ :=
  let result := env.search se sq
  if hasMeaningfulData result.data then
    (some (result, result.data.filterMap (fun r => r.url)), se + 1)
  else
    let retry := env.search (se + 1) (simplifyFallbackQuery sq)
    if hasMeaningfulData retry.data then
      (some (retry, retry.data.filterMap (fun r => r.url)), se + 2)
    else (none, se + 2)

/-- The learnings produced for one successful sub-query search. -/
def pqNewLearnings (env : QueryEnv) (st : QState)
    (result : SearchResponse) : List String :=
  summarizeSearchResults env.trimContent result (env.summarizeResp st.ctrs.su)

/-- The analysis for one sub-query, fed (as in the source) with the fresh
learnings as `textContents`. -/
def pqAnalysis (env : QueryEnv) (st : QState) (sq : String)
    (result : SearchResponse) : AnalysisOut :=
  analyzeAndPlan (pqNewLearnings env st result) sq (env.analysisResp st.ctrs.an)

/-- State after absorbing one successful sub-query: URLs and learnings are
appended, cursors advance. -/
def pqAbsorb (env : QueryEnv) (st : QState) (se2 : ℕ)
    (result : SearchResponse) (foundUrls : List String) : QState :=
  { st with
    combinedLearnings := st.combinedLearnings ++ pqNewLearnings env st result
    combinedUrls := st.combinedUrls ++ foundUrls
    ctrs := { st.ctrs with
      se := se2
      su := st.ctrs.su + 1
      an := st.ctrs.an + 1 } }

/-- The inner sub-query loop of `deepResearchQuery` (deep-research.ts
lines 1164-1243).  The Bool result is `true` when the analysis said
`shouldContinue = false` and the whole function returned early; a
non-empty `nextSearchTopic.trim()` replaces the active query. -/
def processSubQueries (env : QueryEnv)
    (component : Option ResearchComponent) :
    List String → QState → QState × Bool
  | [], st => (st, false)
  | sq :: rest, st =>
      match searchStep env st.ctrs.se sq with
      | (none, se2) =>
          processSubQueries env component rest
            { st with ctrs := { st.ctrs with se := se2 } }
      | (some (result, foundUrls), se2) =>
          if (pqAnalysis env st sq result).shouldContinue = false then
            (pqAbsorb env st se2 result foundUrls, true)
          else if (pqAnalysis env st sq result).nextSearchTopic.trim ≠ "" then
            processSubQueries env component rest
              { pqAbsorb env st se2 result foundUrls with
                query := (pqAnalysis env st sq result).nextSearchTopic.trim }
          else
            processSubQueries env component rest
              (pqAbsorb env st se2 result foundUrls)

/-- The depth loop of `deepResearchQuery` (deep-research.ts lines
1141-1278), fuelled by the remaining iterations (`fuel = depth - d`).  Per
iteration: break on the `< 20s` guard, generate up to `breadth`
sub-queries, process them (propagating an early return), and—when a
component is present and this is not the last planned iteration—run the
mid-depth saturation check with `completedIterations = d + 1`, updating
`gapDetails` and breaking at saturation or coverage ≥ 65. -/
def depthLoop (env : QueryEnv) (breadth : ℕ)
    (component : Option ResearchComponent) (remainingTime : Option Int)
    (depth : ℕ) : ℕ → QState → QState
  | 0, st => st
  | fuel + 1, st =>
      if timeGuard remainingTime = true then st
      else
        match processSubQueries env component
            (generateSubQueries breadth (env.subQueryResp st.ctrs.sq))
            { st with ctrs := { st.ctrs with sq := st.ctrs.sq + 1 } } with
        | (st1, true) => st1
        | (st1, false) =>
            match component with
            | none =>
                depthLoop env breadth component remainingTime depth fuel st1
            | some c =>
                if 0 < fuel then
                  if (evaluateComponentSaturation c st1.combinedLearnings
                        (depth - fuel) depth
                        (env.saturationResp st1.ctrs.sa)).isSaturated =
                      true ∨
                      65 ≤ (evaluateComponentSaturation c
                        st1.combinedLearnings (depth - fuel) depth
                        (env.saturationResp st1.ctrs.sa)).coveragePercentage
                  then
                    { st1 with
                      gapDetails := (evaluateComponentSaturation c
                        st1.combinedLearnings (depth - fuel) depth
                        (env.saturationResp st1.ctrs.sa)).gapDetails
                      ctrs := { st1.ctrs with sa := st1.ctrs.sa + 1 } }
                  else
                    depthLoop env breadth component remainingTime depth fuel
                      { st1 with
                        gapDetails := (evaluateComponentSaturation c
                          st1.combinedLearnings (depth - fuel) depth
                          (env.saturationResp st1.ctrs.sa)).gapDetails
                        ctrs := { st1.ctrs with sa := st1.ctrs.sa + 1 } }
                else
                  depthLoop env breadth component remainingTime depth fuel st1

/-- `deepResearchQuery` (deep-research.ts lines 1106-1284):
`combinedLearnings` and `combinedUrls` start as copies of the inputs and
the final values are returned on every exit path. -/
def deepResearchQuery (env : QueryEnv) (query : String)
    (breadth depth : ℕ) (learnings visitedUrls : List String)
    (remainingTime : Option Int) (component : Option ResearchComponent)
    (gapDetails : List (String × String)) : ResearchOutcome :=
  let final := depthLoop env breadth component remainingTime depth depth
    { query := query
      combinedLearnings := learnings
      combinedUrls := visitedUrls
      gapDetails := gapDetails
      ctrs := { sq := 0, se := 0, su := 0, an := 0, sa := 0 } }
  { learnings := final.combinedLearnings
    visitedUrls := final.combinedUrls }

/-- `st2` extends `st`: both accumulator lists of `st2` have the
corresponding list of `st` as an initial segment (nothing is removed or
reordered). -/
def qAccum (st st2 : QState) : Prop :=
  (∃ tl, st2.combinedLearnings = st.combinedLearnings ++ tl) ∧
  (∃ tu, st2.combinedUrls = st.combinedUrls ++ tu)

theorem qAccum_of_eq (st st2 : QState)
    (hl : st2.combinedLearnings = st.combinedLearnings)
    (hu : st2.combinedUrls = st.combinedUrls) : qAccum st st2 :=
  ⟨⟨[], by simp [hl]⟩, ⟨[], by simp [hu]⟩⟩

theorem qAccum_trans (a b c : QState) (h1 : qAccum a b) (h2 : qAccum b c) :
    qAccum a c := by
  obtain ⟨⟨t1, ht1⟩, ⟨u1, hu1⟩⟩ := h1
  obtain ⟨⟨t2, ht2⟩, ⟨u2, hu2⟩⟩ := h2
  exact ⟨⟨t1 ++ t2, by rw [ht2, ht1, List.append_assoc]⟩,
    ⟨u1 ++ u2, by rw [hu2, hu1, List.append_assoc]⟩⟩

/-- The sub-query loop only appends to the accumulator lists, on the
skip path, the early-return path and the normal path alike. -/
theorem processSubQueries_accum (env : QueryEnv)
    (component : Option ResearchComponent) :
    ∀ (sqs : List String) (st : QState),
      qAccum st (processSubQueries env component sqs st).1 := by
  intro sqs
  induction sqs with
  | nil =>
      intro st
      exact qAccum_of_eq _ _ rfl rfl
  | cons sq rest ih =>
      intro st
      rw [processSubQueries]
      rcases hss : searchStep env st.ctrs.se sq with ⟨o, se2⟩
      match o with
      | none =>
          exact qAccum_trans _ _ _ (qAccum_of_eq _ _ rfl rfl)
            (ih { st with ctrs := { st.ctrs with se := se2 } })
      | some (result, foundUrls) =>
          have habs : qAccum st (pqAbsorb env st se2 result foundUrls) :=
            ⟨⟨pqNewLearnings env st result, rfl⟩, ⟨foundUrls, rfl⟩⟩
          dsimp only
          by_cases hsc : (pqAnalysis env st sq result).shouldContinue = false
          · rw [if_pos hsc]
            exact habs
          · rw [if_neg hsc]
            by_cases hnt : (pqAnalysis env st sq result).nextSearchTopic.trim
                ≠ ""
            · rw [if_pos hnt]
              refine qAccum_trans _ _ _ habs (qAccum_trans _ _ _
                (qAccum_of_eq _ _ rfl rfl) (ih _))
            · rw [if_neg hnt]
              exact qAccum_trans _ _ _ habs (ih _)

/-- The depth loop only appends to the accumulator lists, on the `< 20s`
break, the early return, the mid-depth saturation break and normal
completion alike. -/
theorem depthLoop_accum (env : QueryEnv) (breadth : ℕ)
    (component : Option ResearchComponent) (remainingTime : Option Int)
    (depth : ℕ) :
    ∀ (fuel : ℕ) (st : QState),
      qAccum st (depthLoop env breadth component remainingTime depth fuel
        st) := by
  intro fuel
  induction fuel with
  | zero =>
      intro st
      exact qAccum_of_eq _ _ rfl rfl
  | succ fuel ih =>
      intro st
      rw [depthLoop]
      by_cases hg : timeGuard remainingTime = true
      · rw [if_pos hg]
        exact qAccum_of_eq _ _ rfl rfl
      · rw [if_neg hg]
        rcases hp : processSubQueries env component
            (generateSubQueries breadth (env.subQueryResp st.ctrs.sq))
            { st with ctrs := { st.ctrs with sq := st.ctrs.sq + 1 } }
          with ⟨st1, b⟩
        have hacc1 : qAccum st st1 := by
          have := processSubQueries_accum env component
            (generateSubQueries breadth (env.subQueryResp st.ctrs.sq))
            { st with ctrs := { st.ctrs with sq := st.ctrs.sq + 1 } }
          rw [hp] at this
          exact qAccum_trans _ _ _ (qAccum_of_eq _ _ rfl rfl) this
        match b with
        | true => exact hacc1
        | false =>
            match component with
            | none => exact qAccum_trans _ _ _ hacc1 (ih st1)
            | some c =>
                dsimp only
                by_cases hf : 0 < fuel
                · rw [if_pos hf]
                  by_cases hb : (evaluateComponentSaturation c
                        st1.combinedLearnings (depth - fuel) depth
                        (env.saturationResp st1.ctrs.sa)).isSaturated =
                      true ∨
                      65 ≤ (evaluateComponentSaturation c
                        st1.combinedLearnings (depth - fuel) depth
                        (env.saturationResp st1.ctrs.sa)).coveragePercentage
                  · rw [if_pos hb]
                    exact qAccum_trans _ _ _ hacc1
                      (qAccum_of_eq _ _ rfl rfl)
                  · rw [if_neg hb]
                    exact qAccum_trans _ _ _ hacc1 (qAccum_trans _ _ _
                      (qAccum_of_eq _ _ rfl rfl) (ih _))
                · rw [if_neg hf]
                  exact qAccum_trans _ _ _ hacc1 (ih st1)

/-- C9: `deepResearchQuery` only accumulates — on every exit path (early
return on `shouldContinue = false`, break on the `< 20s` guard, mid-depth
saturation break, or normal completion) the returned `learnings` and
`visitedUrls` extend the input arrays, which are kept as initial segments
with no entry removed or reordered. -/
theorem deepResearchQuery_accumulates (env : QueryEnv) (query : String)
    (breadth depth : ℕ) (learnings visitedUrls : List String)
    (remainingTime : Option Int) (component : Option ResearchComponent)
    (gapDetails : List (String × String)) :
    ∃ tl tu,
      (deepResearchQuery env query breadth depth learnings visitedUrls
        remainingTime component gapDetails).learnings = learnings ++ tl ∧
      (deepResearchQuery env query breadth depth learnings visitedUrls
        remainingTime component gapDetails).visitedUrls =
        visitedUrls ++ tu := by
  obtain ⟨⟨tl, htl⟩, ⟨tu, htu⟩⟩ := depthLoop_accum env breadth component
    remainingTime depth depth
    { query := query
      combinedLearnings := learnings
      combinedUrls := visitedUrls
      gapDetails := gapDetails
      ctrs := { sq := 0, se := 0, su := 0, an := 0, sa := 0 } }
  exact ⟨tl, tu, htl, htu⟩
